import Mathlib

/-!
Verification development for the real-time voice session orchestrator
(`backend/ws_handler.py` and `backend/services/streaming_service.py`).

The session state machine, VAD, barge-in controller, watchdog and the
per-turn pipeline are embedded shallowly:

* Audio frames are modelled by their squared RMS energy (`rmsSq : ℚ`) and
  their byte length.  The source computes `rms = sqrt(meanSquare)` and only
  ever compares it against nonnegative integer thresholds `T`; since
  `sqrt` is monotone, `rms > T` holds exactly when `meanSquare > T^2`, so
  carrying the mean square loses nothing and keeps everything computable.
* The raw byte-level analyzer `_calculate_rms` is embedded separately
  (`calculate_rms_sq`), returning `none` exactly when the fixed-size
  `struct.unpack` in the source raises (odd byte length at least 3).
* The asyncio concurrency is modelled as a cooperative trace semantics:
  the websocket loop steps (`Act.msg`, `Act.idleTick`) and the scheduler
  steps of the session's background task (`Act.taskRun`) interleave
  explicitly; each `taskRun` advances `_process_utterance` / `_auto_greet`
  from one `await` suspension point to the next, with the outcome of the
  external call supplied by the trace.  Cancellation via barge-in is
  synchronous in the source (`cancel` immediately followed by `await`), and
  is modelled by running the task's `CancelledError` handler in place.
  A Python task whose handle is overwritten while it is still running keeps
  running unreferenced; the model records such tasks in `orphaned`.
-/

namespace VoiceAgent

/-- VAD / barge-in / watchdog configuration constants of `VoiceSession.__init__`. -/
def SILENCE_THRESHOLD : ℕ := 80

def SPEECH_THRESHOLD : ℕ := 200

def SILENCE_DURATION_MS : ℕ := 1000

def MIN_SPEECH_DURATION_MS : ℕ := 300

def FRAME_DURATION_MS : ℕ := 256

def MIN_AUDIO_BYTES : ℕ := 8192

def BARGE_IN_THRESHOLD : ℕ := 500

def MIN_BARGE_IN_FRAMES : ℕ := 3

def PLAYBACK_COOLDOWN_MS : ℕ := 500

def WATCHDOG_TIMEOUT_S : ℕ := 30

def GREETING_WATCHDOG_TIMEOUT_S : ℕ := 120

def MAX_HISTORY_ENTRIES : ℕ := 10

/-- The five states of the session finite-state machine (`SessionState`). -/
inductive SessionState
  | GREETING
  | LISTENING
  | USER_SPEAKING
  | PROCESSING
  | AI_SPEAKING
deriving DecidableEq, Repr

/-- Conversation roles used in the history entries. -/
inductive Role
  | user
  | assistant
deriving DecidableEq, Repr

/-- One entry of `conversation_history`. -/
structure Turn where
  role : Role
  content : String
deriving DecidableEq, Repr

/-- Outbound protocol events emitted by the session via `send_event`. -/
inductive Event
  | vad (speaking : Bool)
  | transcript (role : Role) (text : String)
  | token (text : String)
  | audio
  | status (stage : String)
  | interrupt
  | perf
  | ping
  | error (message : String)
deriving DecidableEq, Repr

/-- Result values returned by `VoiceSession._detect_speech`. -/
inductive VadResult
  | speechStart
  | speechContinue
  | speechEnd
  | silence
deriving DecidableEq, Repr

/-- Suspension points of the two background coroutines, `_process_utterance`
(turn pipeline) and `_auto_greet` (greeting pipeline).  Each constructor is
the `await` at which the coroutine is currently suspended; string arguments
carry the data accumulated so far (user transcript, generated reply,
greeting text). -/
inductive TaskPhase
  | turnStart
  | turnStt
  | turnRag (userText : String)
  | turnLlm (userText : String)
  | turnTts (userText aiText : String)
  | turnAudioSent (userText aiText : String)
  | turnPerfPending
  | greetStart
  | greetBusiness
  | greetLlm
  | greetTts (greeting : String)
  | greetTail (greeting : String)
deriving DecidableEq, Repr

/-- Whether a phase belongs to the per-turn pipeline `_process_utterance`
(as opposed to `_auto_greet`).  Only `_process_utterance` has an
`except asyncio.CancelledError` clause. -/
def TaskPhase.isTurn : TaskPhase → Bool
  | .turnStart => true
  | .turnStt => true
  | .turnRag _ => true
  | .turnLlm _ => true
  | .turnTts _ _ => true
  | .turnAudioSent _ _ => true
  | .turnPerfPending => true
  | _ => false

/-- An asyncio task owned by the session (`_processing_task`).  `done` is
Python's `task.done()`; `cancelled` records that cancellation was delivered
and its handler ran. -/
structure TaskState where
  phase : TaskPhase
  cancelled : Bool
  done : Bool
deriving DecidableEq, Repr

/-- The mutable state of one `VoiceSession`.  The audio buffer is tracked by
its byte length (`bufferLen`), which is all the session logic inspects
(`len(self._audio_buffer)` gates).  Timestamps are integers (seconds): the
source only ever uses times through differences compared against the
integral thresholds 30 s, 120 s and 500 ms, so integer-valued instants
realize every reachable comparison pattern.  `orphaned` records tasks whose
handle was overwritten while they were still running (they keep running in
asyncio, unreferenced). -/
structure Session where
  state : SessionState
  stateEnteredAt : ℤ
  bufferLen : ℕ
  silenceFrames : ℕ
  speechFrames : ℕ
  isSpeaking : Bool
  lastSpeechTime : ℤ
  chunkCount : ℕ
  bargeInFrames : ℕ
  playbackEndedAt : ℤ
  history : List Turn
  task : Option TaskState
  orphaned : List TaskState
deriving DecidableEq, Repr

/-- An inbound PCM frame, modelled by its squared RMS energy and byte
length (see the module comment for why the square is carried). -/
structure Frame where
  rmsSq : ℚ
  len : ℕ
deriving DecidableEq, Repr

/-- `VoiceSession._set_state`: transition and stamp the entry time. -/
def set_state (s : Session) (st : SessionState) (now : ℤ) : Session :=
  { s with state := st, stateEnteredAt := now }

/-- The freshly constructed session of `VoiceSession.__init__` plus the
`_auto_greet` task spawned immediately by `handle_voice_websocket`. -/
def initSession (now : ℤ) : Session :=
  { state := .GREETING, stateEnteredAt := now, bufferLen := 0, silenceFrames := 0,
    speechFrames := 0, isSpeaking := false, lastSpeechTime := 0, chunkCount := 0,
    bargeInFrames := 0, playbackEndedAt := 0, history := [],
    task := some ⟨.greetStart, false, false⟩, orphaned := [] }

/-- `VoiceSession._detect_speech`: RMS-energy VAD.  The source increments
the silence counter and then compares `silence_frames * FRAME_DURATION_MS`
against the silence threshold, which is the `(s.silenceFrames + 1) * ...`
comparison below. -/
def detect_speech (s : Session) (now : ℤ) (f : Frame) : Session × VadResult :=
  if ((SPEECH_THRESHOLD ^ 2 : ℕ) : ℚ) < f.rmsSq then
    if s.isSpeaking = false then
      ({ s with
          chunkCount := s.chunkCount + 1, silenceFrames := 0,
          speechFrames := s.speechFrames + 1, isSpeaking := true,
          lastSpeechTime := now }, .speechStart)
    else
      ({ s with
          chunkCount := s.chunkCount + 1, silenceFrames := 0,
          speechFrames := s.speechFrames + 1 }, .speechContinue)
  else
    if s.isSpeaking = true ∧
        SILENCE_DURATION_MS ≤ (s.silenceFrames + 1) * FRAME_DURATION_MS then
      if MIN_SPEECH_DURATION_MS ≤ s.speechFrames * FRAME_DURATION_MS then
        ({ s with
            chunkCount := s.chunkCount + 1, silenceFrames := 0,
            speechFrames := 0, isSpeaking := false }, .speechEnd)
      else
        ({ s with
            chunkCount := s.chunkCount + 1, silenceFrames := 0,
            speechFrames := 0, isSpeaking := false, bufferLen := 0 }, .silence)
    else
      if s.isSpeaking = false then
        ({ s with
            chunkCount := s.chunkCount + 1,
            silenceFrames := s.silenceFrames + 1 }, .silence)
      else
        ({ s with
            chunkCount := s.chunkCount + 1,
            silenceFrames := s.silenceFrames + 1 }, .speechContinue)

/-- The `except asyncio.CancelledError` handler of the task body: the turn
pipeline resets the state to LISTENING and re-raises; `_auto_greet` has no
such handler (its `except Exception` does not catch `CancelledError`), so
greeting cancellation changes nothing. -/
def run_cancel_handler (s : Session) (now : ℤ) (t : TaskState) : Session :=
  if t.phase.isTurn then set_state s .LISTENING now else s

/-- `VoiceSession._interrupt_ai`: cancel and await the in-flight task (its
cancellation handler runs synchronously here), drop the handle, then emit
the `interrupt` and `status listening` events. -/
def interrupt_ai (s : Session) (now : ℤ) : Session × List Event :=
  (match s.task with
   | some t => if t.done = false then { run_cancel_handler s now t with task := none } else s
   | none => s,
   [.interrupt, .status "listening"])

/-- Overwrite `_processing_task` with a fresh `_process_utterance` task
(`asyncio.create_task` at the end of `handle_audio_chunk`).  The source does
not cancel or await the previous task; if one is still running it keeps
running unreferenced, recorded here in `orphaned`. -/
def spawn_turn_task (s : Session) : Session :=
  { s with task := some ⟨.turnStart, false, false⟩,
           orphaned :=
             match s.task with
             | some t => if t.done = false then s.orphaned ++ [t] else s.orphaned
             | none => s.orphaned }

/-- The barge-in firing branch of `handle_audio_chunk`: reset the counter,
run `_interrupt_ai`, restart the buffer with the triggering frame, mark
speaking, transition to USER_SPEAKING and emit `vad speaking=true`. -/
def barge_in_fire (s : Session) (now : ℤ) (f : Frame) : Session × List Event :=
  (set_state
     { (interrupt_ai s now).1 with
        bargeInFrames := 0, bufferLen := f.len,
        isSpeaking := true, speechFrames := 1, silenceFrames := 0 }
     .USER_SPEAKING now,
   (interrupt_ai s now).2 ++ [.vad true])

/-- `VoiceSession.handle_audio_chunk` on a frame already analyzed for RMS:
state-based gating, barge-in check during AI_SPEAKING/GREETING, drop during
PROCESSING and post-playback cooldown, otherwise VAD classification. -/
def handle_audio_chunk (s : Session) (now : ℤ) (f : Frame) : Session × List Event :=
  if s.state = .AI_SPEAKING ∨ s.state = .GREETING then
    if ((BARGE_IN_THRESHOLD ^ 2 : ℕ) : ℚ) < f.rmsSq then
      if MIN_BARGE_IN_FRAMES ≤ s.bargeInFrames + 1 then
        barge_in_fire { s with chunkCount := s.chunkCount + 1 } now f
      else
        ({ s with
          chunkCount := s.chunkCount + 1,
          bargeInFrames := s.bargeInFrames + 1 }, [])
    else
      ({ s with chunkCount := s.chunkCount + 1, bargeInFrames := 0 }, [])
  else if s.state = .PROCESSING then
    (s, [])
  else if 0 < s.playbackEndedAt ∧
      (now - s.playbackEndedAt) * 1000 < ((PLAYBACK_COOLDOWN_MS : ℤ)) then
    (s, [])
  else
    match detect_speech s now f with
    | (s1, .speechStart) =>
        ({ set_state s1 .USER_SPEAKING now with bufferLen := f.len }, [.vad true])
    | (s1, .speechContinue) =>
        if s1.isSpeaking = true then
          ({ s1 with bufferLen := s1.bufferLen + f.len }, [])
        else (s1, [])
    | (s1, .speechEnd) =>
        if s1.bufferLen < MIN_AUDIO_BYTES then
          (set_state { s1 with bufferLen := 0 } .LISTENING now, [.vad false])
        else
          (spawn_turn_task (set_state { s1 with bufferLen := 0 } .PROCESSING now),
           [.vad false])
    | (s1, .silence) => (s1, [])

/-- `VoiceSession.handle_playback_done`: stamp the cooldown, reset the VAD
counters and the barge-in counter, clear the buffer and go to LISTENING.
The source performs this unconditionally, in every state. -/
def handle_playback_done (s : Session) (now : ℤ) : Session :=
  set_state
    { s with
       playbackEndedAt := now, bargeInFrames := 0, isSpeaking := false,
       speechFrames := 0, silenceFrames := 0, bufferLen := 0 }
    .LISTENING now

/-- `VoiceSession.check_watchdog`: force a reset to LISTENING when stuck in
AI_SPEAKING past 30 s or in GREETING past 120 s. -/
def check_watchdog (s : Session) (now : ℤ) : Session × List Event :=
  if s.state = .AI_SPEAKING then
    if ((WATCHDOG_TIMEOUT_S : ℤ)) < now - s.stateEnteredAt then
      (set_state { s with playbackEndedAt := now } .LISTENING now, [.status "listening"])
    else (s, [])
  else if s.state = .GREETING then
    if ((GREETING_WATCHDOG_TIMEOUT_S : ℤ)) < now - s.stateEnteredAt then
      (set_state s .LISTENING now, [.status "listening"])
    else (s, [])
  else (s, [])

/-- Outcomes of the external calls awaited inside the pipelines, supplied by
the trace at each scheduler step: the transcription result (`none` covers
the 10 s timeout, `some t` the returned text which may still be blank), the
retrieval result, the generated token stream, and whether synthesis
(including its single retry) produced a truthy audio blob. -/
inductive Outcome
  | run
  | sttRes (transcript : Option String)
  | ragRes (ctx : Option String)
  | llmRes (toks : List String)
  | ttsRes (ok : Bool)
deriving DecidableEq, Repr

/-- Mark the session's current task finished. -/
def finish_task (s : Session) : Session :=
  { s with task := s.task.map fun t => { t with done := true } }

/-- Replace the current task's phase (the task advanced to its next
suspension point). -/
def set_phase (s : Session) (p : TaskPhase) : Session :=
  { s with task := s.task.map fun t => { t with phase := p } }

/-- Python `not transcript.strip()`: the transcript is empty or all
whitespace. -/
def isBlank (u : String) : Bool :=
  u.toList.all fun c => c.isWhitespace

/-- `conversation_history` append of a completed (user, assistant) pair
followed by the cap to the most recent `MAX_HISTORY_ENTRIES` entries. -/
def append_capped (h : List Turn) (u a : Turn) : List Turn :=
  if (h ++ [u, a]).length > MAX_HISTORY_ENTRIES then
    (h ++ [u, a]).drop ((h ++ [u, a]).length - MAX_HISTORY_ENTRIES)
  else h ++ [u, a]

/-- Fixed first history entry appended by `_auto_greet`. -/
def CALL_STARTED : String := "(కాల్ ప్రారంభమైంది)"

/-- One scheduler step of the session's background task: run from the
current suspension point to the next one, emitting the events produced in
between; the `Outcome` supplies the result of the completed external call.
Mismatched outcomes leave the task suspended. -/
def advance_task (s : Session) (now : ℤ) (o : Outcome) : Session × List Event :=
  match s.task with
  | none => (s, [])
  | some t =>
    if t.done = true ∨ t.cancelled = true then (s, [])
    else
      match t.phase, o with
      | .turnStart, _ => (set_phase s .turnStt, [.status "transcribing"])
      | .turnStt, .sttRes none =>
          (finish_task (set_state s .LISTENING now), [.status "listening"])
      | .turnStt, .sttRes (some u) =>
          if isBlank u = true then
            (finish_task (set_state s .LISTENING now), [.status "listening"])
          else
            (set_phase s (.turnRag u), [.transcript .user u, .status "searching"])
      | .turnRag u, .ragRes _ => (set_phase s (.turnLlm u), [.status "thinking"])
      | .turnLlm u, .llmRes toks =>
          (set_phase s (.turnTts u (String.join toks)),
           toks.map Event.token ++
             [.transcript .assistant (String.join toks), .status "speaking"])
      | .turnTts u a, .ttsRes ok =>
          if ok then
            (set_phase (set_state s .AI_SPEAKING now) (.turnAudioSent u a), [.audio])
          else
            (set_phase (set_state s .LISTENING now) (.turnAudioSent u a),
             [.status "listening"])
      | .turnAudioSent u a, _ =>
          (set_phase
             { s with
                history := append_capped s.history ⟨.user, u⟩ ⟨.assistant, a⟩ }
             .turnPerfPending, [])
      | .turnPerfPending, _ => (finish_task s, [.perf])
      | .greetStart, _ => (set_phase s .greetBusiness, [.status "thinking"])
      | .greetBusiness, _ => (set_phase s .greetLlm, [])
      | .greetLlm, .llmRes toks =>
          (set_phase s (.greetTts (String.join toks)),
           [.transcript .assistant (String.join toks), .status "speaking"])
      | .greetTts g, .ttsRes ok =>
          if ok then
            (set_phase (set_state s .AI_SPEAKING now) (.greetTail g), [.audio])
          else
            (set_phase (set_state s .LISTENING now) (.greetTail g),
             [.status "listening"])
      | .greetTail g, _ =>
          (finish_task
             { s with
                history := append_capped s.history ⟨.user, CALL_STARTED⟩
                  ⟨.assistant, g⟩ }, [])
      | _, _ => (s, [])

/-- Inbound websocket messages dispatched by `handle_voice_websocket`. -/
inductive Msg
  | audioChunk (f : Frame)
  | playbackDone
  | userInterrupt
  | configMsg
  | pong
deriving DecidableEq, Repr

/-- The dispatch part of the receive loop (after the watchdog check). -/
def dispatch (s : Session) (now : ℤ) (m : Msg) : Session × List Event :=
  match m with
  | .audioChunk f => handle_audio_chunk s now f
  | .playbackDone => (handle_playback_done s now, [.status "listening"])
  | .userInterrupt => (s, [])
  | .configMsg => (s, [])
  | .pong => (s, [])

/-- One step of the cooperative interleaving: either a websocket loop
iteration (watchdog check, then dispatch), an idle-timeout tick (heartbeat
ping, then watchdog), a scheduler step of the background task, or delivery
of a teardown cancellation to the background task. -/
inductive Act
  | msg (m : Msg)
  | idleTick
  | taskRun (o : Outcome)
  | cancelDeliver
deriving DecidableEq, Repr

/-- Step the whole session by one `Act` occurring at time `now`. -/
def step (s : Session) (now : ℤ) (a : Act) : Session × List Event :=
  match a with
  | .msg m =>
      ((dispatch (check_watchdog s now).1 now m).1,
       (check_watchdog s now).2 ++ (dispatch (check_watchdog s now).1 now m).2)
  | .idleTick => ((check_watchdog s now).1, .ping :: (check_watchdog s now).2)
  | .taskRun o => advance_task s now o
  | .cancelDeliver =>
      match s.task with
      | some t =>
          if t.done = true ∨ t.cancelled = true then (s, [])
          else
            ({ run_cancel_handler s now t with
                task := some { t with cancelled := true, done := true } }, [])
      | none => (s, [])

/-- Run a timed trace of acts from a starting session. -/
def runTrace (s : Session) : List (ℤ × Act) → Session × List Event
  | [] => (s, [])
  | (t, a) :: rest =>
      ((runTrace (step s t a).1 rest).1,
       (step s t a).2 ++ (runTrace (step s t a).1 rest).2)

/-- Run `_detect_speech` over a list of frames, collecting the per-frame
classifications. -/
def run_detect (s : Session) (now : ℤ) : List Frame → Session × List VadResult
  | [] => (s, [])
  | f :: rest =>
      ((run_detect (detect_speech s now f).1 now rest).1,
       (detect_speech s now f).2 :: (run_detect (detect_speech s now f).1 now rest).2)

/-! ### The per-turn pipeline as a function of its external-call outcomes

For the claims about retry/fallback/event behaviour of one turn, the
pipeline `_process_utterance` is also embedded as a pure function of the
outcomes of its external calls (`rest_stt`, `search_context`, `stream_llm`,
`rest_tts`), run to completion without cancellation. -/

/-- Canned apology yielded by `stream_llm` when generation fails
(also used by the `except` clause in `_process_utterance`). -/
def APOLOGY_PHRASE : String := "క్షమించండి, మళ్ళీ చెప్పగలరా?"

/-- Canned apology yielded by `stream_llm` on an HTTP read timeout. -/
def TIMEOUT_PHRASE : String := "క్షమించండి, ఆలస్యం అవుతోంది. మళ్ళీ చెప్పండి."

/-- How the streaming LLM call behaves, at the boundary of the external
HTTP collaborator: the stream opens with status 200 and delivers parsed SSE
token contents; or it opens with status 400 (the client-error branch, which
makes one `_llm_fallback` call whose result is `fallbackResult`, `none`
standing for a non-200 fallback response or a fallback exception); or it
opens with another error status (`raise_for_status` fires); or the request
times out; or some other exception escapes. -/
inductive LlmStreamOutcome
  | ok (toks : List String)
  | clientError (fallbackResult : Option String)
  | httpError
  | readTimeout
  | exn
deriving DecidableEq, Repr

/-- `stream_llm` in `streaming_service.py`, as the pair (chunks yielded to
the caller, number of `_llm_fallback` invocations). -/
def stream_llm : LlmStreamOutcome → List String × ℕ
  | .ok toks => (toks, 0)
  | .clientError (some t) => ([t], 1)
  | .clientError none => ([APOLOGY_PHRASE], 1)
  | .httpError => ([APOLOGY_PHRASE], 0)
  | .readTimeout => ([TIMEOUT_PHRASE], 0)
  | .exn => ([APOLOGY_PHRASE], 0)

/-- Outcomes of the external calls made during one turn.  `sttResult` is the
`rest_stt` result under its 10 s `wait_for` (`none` = timeout; the returned
transcript may still be blank).  `ragResult` is the `search_context` result
(`none` = 5 s timeout; it only feeds the LLM prompt and never aborts the
turn).  `tts1`/`tts2` are the bytes of the two possible `rest_tts` calls
(`none` = timeout or a `None` return; Python then applies a truthiness
check, so `some []` is also falsy). -/
structure PipelineEnv where
  sttResult : Option String
  ragResult : Option (Option String)
  llm : LlmStreamOutcome
  tts1 : Option (List ℕ)
  tts2 : Option (List ℕ)
deriving DecidableEq, Repr

/-- Python truthiness of the optional audio blob (`if not audio_bytes`). -/
def truthyBytes : Option (List ℕ) → Bool
  | some (_ :: _) => true
  | _ => false

/-- The observable result of one uncancelled run of `_process_utterance`:
the events sent to the peer in order, the state set by the turn's last
`_set_state`, the updated history, and how often `rest_tts` and
`_llm_fallback` were invoked. -/
structure TurnResult where
  events : List Event
  finalState : SessionState
  history : List Turn
  ttsCalls : ℕ
  llmFallbackCalls : ℕ
deriving DecidableEq, Repr

/-- `VoiceSession._process_utterance` run to completion (no cancellation),
as a function of the initial history and the external-call outcomes. -/
def process_utterance (h0 : List Turn) (env : PipelineEnv) : TurnResult :=
  match env.sttResult with
  | none =>
      ⟨[.status "transcribing", .status "listening"], .LISTENING, h0, 0, 0⟩
  | some transcript =>
    if isBlank transcript = true then
      ⟨[.status "transcribing", .status "listening"], .LISTENING, h0, 0, 0⟩
    else
      ⟨[.status "transcribing", .transcript .user transcript, .status "searching",
          .status "thinking"] ++
         (stream_llm env.llm).1.map Event.token ++
         [.transcript .assistant (String.join (stream_llm env.llm).1),
          .status "speaking"] ++
         (if truthyBytes env.tts1 ∨ truthyBytes env.tts2 then [Event.audio]
          else [Event.status "listening"]) ++
         [.perf],
       (if truthyBytes env.tts1 ∨ truthyBytes env.tts2 then .AI_SPEAKING
        else .LISTENING),
       append_capped h0 ⟨.user, transcript⟩
         ⟨.assistant, String.join (stream_llm env.llm).1⟩,
       (if truthyBytes env.tts1 then 1 else 2),
       (stream_llm env.llm).2⟩

/-! ### Byte-level audio analysis

`_calculate_rms` unpacks the chunk as `len(audio_bytes) // 2` little-endian
signed 16-bit samples.  `struct.unpack` with that fixed-size format raises
`struct.error` unless the buffer length is exactly `2 * (len // 2)`, i.e.
for every odd length at least 3 (lengths 0 and 1 return 0.0 early).  Since
the source only compares the resulting RMS against nonnegative thresholds,
the embedding returns the mean square (see the module comment). -/

/-- Interpret an unsigned 16-bit value as the signed sample `struct`
produces for format `h`. -/
def toSigned16 (x : ℕ) : ℤ :=
  if x < 32768 then (x : ℤ) else (x : ℤ) - 65536

/-- Little-endian pairing of bytes into signed 16-bit samples. -/
def decodeSamples : List ℕ → List ℤ
  | lo :: hi :: rest => toSigned16 (lo % 256 + 256 * (hi % 256)) :: decodeSamples rest
  | _ => []

/-- `VoiceSession._calculate_rms`, carrying the squared RMS; `none` models
the `struct.error` escaping the method (odd byte length at least 3). -/
def calculate_rms_sq (b : List ℕ) : Option ℚ :=
  if b.length < 2 then some 0
  else if b.length % 2 = 1 then none
  else
    if (decodeSamples b).length = 0 then some 0
    else some ((((decodeSamples b).map fun x => ((x : ℚ)) ^ 2).sum) /
               ((decodeSamples b).length : ℚ))

/-- `VoiceSession.handle_audio_chunk` on the raw byte chunk: `none` models a
`struct.error` raised out of the handler.  The source computes RMS lazily:
in AI_SPEAKING/GREETING it calls `_calculate_rms` directly, in the
PROCESSING and cooldown branches it returns before any RMS computation, and
otherwise `_detect_speech` calls `_calculate_rms` first thing. -/
def handle_audio_chunk_bytes (s : Session) (now : ℤ) (b : List ℕ) :
    Option (Session × List Event) :=
  if s.state = .AI_SPEAKING ∨ s.state = .GREETING then
    (calculate_rms_sq b).map fun m => handle_audio_chunk s now ⟨m, b.length⟩
  else if s.state = .PROCESSING then some (s, [])
  else if 0 < s.playbackEndedAt ∧
      (now - s.playbackEndedAt) * 1000 < ((PLAYBACK_COOLDOWN_MS : ℤ)) then
    some (s, [])
  else
    (calculate_rms_sq b).map fun m => handle_audio_chunk s now ⟨m, b.length⟩

/-! ### Synthesis-input truncation

`_smart_truncate` in `streaming_service.py`, over the code-point sequence
of the Python string (`List Char`).  Python's `str.rfind(ch)` is embedded
as `lastIndexWhere (· = ch)`, the greatest index holding `ch`, `-1` when
absent. -/

/-- Greatest index of the list satisfying `p`, as Python reports it
(`-1` when no position satisfies `p`). -/
def lastIndexWhere (p : Char → Bool) : List Char → ℤ
  | [] => -1
  | c :: rest =>
      if 0 ≤ lastIndexWhere p rest then lastIndexWhere p rest + 1
      else if p c then 0 else -1

/-- Python `text.rfind(ch)` on a code-point list. -/
def rfind (l : List Char) (ch : Char) : ℤ :=
  lastIndexWhere (fun x => x = ch) l

/-- The three-character ellipsis the source appends on non-sentence cuts. -/
def ellipsisChars : List Char := ['.', '.', '.']

/-- `_smart_truncate(text, limit)`: length-limited truncation preferring the
last sentence boundary in `text[:limit]` past `limit // 2`, then the last
space past `limit // 2` (plus ellipsis), then a hard cut (plus ellipsis). -/
def smart_truncate (text : List Char) (limit : ℕ) : List Char :=
  if text.length ≤ limit then text
  else
    if (((limit / 2 : ℕ)) : ℤ) <
        max (rfind (text.take limit) '.')
          (max (rfind (text.take limit) '!')
            (max (rfind (text.take limit) '?') (rfind (text.take limit) '।'))) then
      (text.take limit).take
        ((max (rfind (text.take limit) '.')
            (max (rfind (text.take limit) '!')
              (max (rfind (text.take limit) '?')
                (rfind (text.take limit) '।')))) + 1).toNat
    else if (((limit / 2 : ℕ)) : ℤ) < rfind (text.take limit) ' ' then
      (text.take limit).take (rfind (text.take limit) ' ').toNat ++ ellipsisChars
    else
      text.take limit ++ ellipsisChars

/-- The sentence-ender test of `_smart_truncate` (the four punctuation
characters whose `rfind` results are maximised). -/
def isSentenceEnder (c : Char) : Bool :=
  c = '.' || c = '!' || c = '?' || c = '।'

/-! ### Concrete sessions, traces and environments used by the theorems -/

/-- A speaking session after two speech frames, used to instantiate the VAD
theorems. -/
def sSpkEx : Session :=
  { state := .USER_SPEAKING, stateEnteredAt := 2, bufferLen := 16384,
    silenceFrames := 0, speechFrames := 2, isSpeaking := true, lastSpeechTime := 3,
    chunkCount := 2, bargeInFrames := 0, playbackEndedAt := 0, history := [],
    task := none, orphaned := [] }

/-- A speaking session with only one (256 ms) speech frame accumulated and
the silence window one frame from full. -/
def sShortEx : Session :=
  { sSpkEx with speechFrames := 1, silenceFrames := 3, bufferLen := 8192 }

/-- The client message trace refuting C2: greeting skipped via
`playback_done`, one 256 ms speech frame, then four silent frames.  The VAD
discards the too-short utterance and yields `silence`, which the chunk
handler ignores. -/
def c2trace : List (ℤ × Act) :=
  [(1, .msg .playbackDone),
   (2, .msg (.audioChunk ⟨62500, 8192⟩)),
   (3, .msg (.audioChunk ⟨2500, 8192⟩)),
   (4, .msg (.audioChunk ⟨2500, 8192⟩)),
   (5, .msg (.audioChunk ⟨2500, 8192⟩)),
   (6, .msg (.audioChunk ⟨2500, 8192⟩))]

/-- A session in USER_SPEAKING mid-utterance. -/
def sUserEx : Session :=
  { state := .USER_SPEAKING, stateEnteredAt := 2, bufferLen := 8192,
    silenceFrames := 0, speechFrames := 1, isSpeaking := true, lastSpeechTime := 2,
    chunkCount := 3, bargeInFrames := 0, playbackEndedAt := 0, history := [],
    task := none, orphaned := [] }

/-- A session in PROCESSING with its turn task awaiting transcription. -/
def sProcEx : Session :=
  { sUserEx with
     state := .PROCESSING, isSpeaking := false, bufferLen := 0,
     task := some ⟨.turnStt, false, false⟩ }

/-- A session in AI_SPEAKING with two stale barge-in frames counted and the
turn task in its final stretch. -/
def sAiEx : Session :=
  { state := .AI_SPEAKING, stateEnteredAt := 141, bufferLen := 0,
    silenceFrames := 0, speechFrames := 0, isSpeaking := false, lastSpeechTime := 132,
    chunkCount := 10, bargeInFrames := 2, playbackEndedAt := 0,
    history := [], task := some ⟨.turnAudioSent "హలో" "సరే", false, false⟩,
    orphaned := [] }

/-- The trace refuting C4 as stated: two over-threshold frames land during
GREETING, the greeting watchdog then resets the session to LISTENING
without clearing the barge-in counter, a full turn is spoken and processed
into AI_SPEAKING — and then a single over-threshold frame fires barge-in. -/
def c4prefixTrace : List (ℤ × Act) :=
  [(1, .msg (.audioChunk ⟨360000, 8192⟩)),
   (2, .msg (.audioChunk ⟨360000, 8192⟩)),
   (130, .msg .pong),
   (131, .msg (.audioChunk ⟨62500, 8192⟩)),
   (132, .msg (.audioChunk ⟨62500, 8192⟩)),
   (133, .msg (.audioChunk ⟨2500, 8192⟩)),
   (134, .msg (.audioChunk ⟨2500, 8192⟩)),
   (135, .msg (.audioChunk ⟨2500, 8192⟩)),
   (136, .msg (.audioChunk ⟨2500, 8192⟩)),
   (137, .taskRun .run),
   (138, .taskRun (.sttRes (some "హలో"))),
   (139, .taskRun (.ragRes none)),
   (140, .taskRun (.llmRes ["సరే"])),
   (141, .taskRun (.ttsRes true))]

/-- The trace refuting C3 as stated: the greeting is barged in (observing
its cancellation), a first turn reaches PROCESSING and its task starts
transcription; a `playback_done` message then resets the session to
LISTENING while that task is still awaiting STT, a second utterance is
spoken, and its `speech_end` starts a second turn task while the first is
still alive and uncancelled. -/
def c3trace : List (ℤ × Act) :=
  [(1, .msg (.audioChunk ⟨360000, 8192⟩)),
   (2, .msg (.audioChunk ⟨360000, 8192⟩)),
   (3, .msg (.audioChunk ⟨360000, 8192⟩)),
   (4, .msg (.audioChunk ⟨62500, 8192⟩)),
   (5, .msg (.audioChunk ⟨62500, 8192⟩)),
   (6, .msg (.audioChunk ⟨2500, 8192⟩)),
   (7, .msg (.audioChunk ⟨2500, 8192⟩)),
   (8, .msg (.audioChunk ⟨2500, 8192⟩)),
   (9, .msg (.audioChunk ⟨2500, 8192⟩)),
   (10, .taskRun .run),
   (11, .msg .playbackDone),
   (13, .msg (.audioChunk ⟨62500, 8192⟩)),
   (14, .msg (.audioChunk ⟨62500, 8192⟩)),
   (15, .msg (.audioChunk ⟨2500, 8192⟩)),
   (16, .msg (.audioChunk ⟨2500, 8192⟩)),
   (17, .msg (.audioChunk ⟨2500, 8192⟩)),
   (18, .msg (.audioChunk ⟨2500, 8192⟩))]

/-- A pipeline environment whose two synthesis attempts both time out. -/
def envTtsFail : PipelineEnv :=
  { sttResult := some "హలో", ragResult := some none, llm := .ok ["సరే"],
    tts1 := none, tts2 := none }

/-- A pipeline environment whose streaming generation call fails with a 400
and whose fallback call also fails. -/
def envLlm400 : PipelineEnv :=
  { sttResult := some "హలో", ragResult := some none, llm := .clientError none,
    tts1 := some [1, 2], tts2 := none }

/-- The text refuting the "ellipsis only on hard cuts" part of C8: 501
characters, no sentence punctuation, one space at index 300. -/
def c8ex : List Char := List.replicate 300 'a' ++ ' ' :: List.replicate 200 'b'

/-! ### VAD lemmas -/

/-- A frame at or below the speech threshold processed while not speaking
classifies as silence and leaves the speaking flag and speech counter
untouched. -/
theorem detect_speech_low_not_speaking (s : Session) (now : ℤ) (f : Frame)
    (hq : f.rmsSq ≤ ((SPEECH_THRESHOLD ^ 2 : ℕ) : ℚ)) (hsp : s.isSpeaking = false) :
    detect_speech s now f =
      ({ s with
          chunkCount := s.chunkCount + 1,
          silenceFrames := s.silenceFrames + 1 }, .silence) := by
  simp only [detect_speech, not_lt.mpr hq, if_false, hsp, Bool.false_eq_true,
    false_and, if_true]

/-- A frame at or below the speech threshold processed while speaking, with
the silence window not yet full, increments the silence counter and keeps
speaking. -/
theorem detect_speech_low_speaking_short (s : Session) (now : ℤ) (f : Frame)
    (hq : f.rmsSq ≤ ((SPEECH_THRESHOLD ^ 2 : ℕ) : ℚ)) (hsp : s.isSpeaking = true)
    (hsil : (s.silenceFrames + 1) * FRAME_DURATION_MS < SILENCE_DURATION_MS) :
    detect_speech s now f =
      ({ s with
          chunkCount := s.chunkCount + 1,
          silenceFrames := s.silenceFrames + 1 }, .speechContinue) := by
  simp only [detect_speech, not_lt.mpr hq, if_false, hsp, true_and,
    not_le.mpr hsil, Bool.true_eq_false, if_true]

/-- A frame at or below the speech threshold that fills the silence window
while speaking stops the speaking flag; the episode ends in `speech_end`
when enough speech accumulated, and otherwise clears the buffer and ends in
`silence`. -/
theorem detect_speech_low_speaking_full (s : Session) (now : ℤ) (f : Frame)
    (hq : f.rmsSq ≤ ((SPEECH_THRESHOLD ^ 2 : ℕ) : ℚ)) (hsp : s.isSpeaking = true)
    (hsil : SILENCE_DURATION_MS ≤ (s.silenceFrames + 1) * FRAME_DURATION_MS) :
    detect_speech s now f =
      (if MIN_SPEECH_DURATION_MS ≤ s.speechFrames * FRAME_DURATION_MS then
        ({ s with
            chunkCount := s.chunkCount + 1, silenceFrames := 0,
            speechFrames := 0, isSpeaking := false }, .speechEnd)
      else
        ({ s with
            chunkCount := s.chunkCount + 1, silenceFrames := 0,
            speechFrames := 0, isSpeaking := false, bufferLen := 0 }, .silence)) := by
  simp only [detect_speech, not_lt.mpr hq, if_false, hsp, true_and, hsil, if_true]

/-- Once the speaking flag is down, a run of frames at or below the speech
threshold never produces `speech_end`. -/
theorem run_detect_low_no_end (now : ℤ) (frames : List Frame) :
    ∀ s : Session, (∀ g ∈ frames, g.rmsSq ≤ ((SPEECH_THRESHOLD ^ 2 : ℕ) : ℚ)) →
      s.isSpeaking = false →
      (run_detect s now frames).2.count VadResult.speechEnd = 0 := by
  induction frames with
  | nil => intro s _ _; simp [run_detect]
  | cons f rest ih =>
      intro s hall hsp
      have hq : f.rmsSq ≤ ((SPEECH_THRESHOLD ^ 2 : ℕ) : ℚ) := hall f (by simp)
      have hrec := ih { s with
          chunkCount := s.chunkCount + 1,
          silenceFrames := s.silenceFrames + 1 }
        (fun g hg => hall g (by simp [hg])) hsp
      simp [run_detect, detect_speech_low_not_speaking s now f hq hsp,
        List.count_cons, hrec]

/-- While speaking, with speech already past the minimum duration, a run of
at-or-below-threshold frames long enough to fill the silence window yields
exactly one `speech_end`. -/
theorem run_detect_silent_once (now : ℤ) (frames : List Frame) :
    ∀ s : Session, (∀ g ∈ frames, g.rmsSq ≤ ((SPEECH_THRESHOLD ^ 2 : ℕ) : ℚ)) →
      s.isSpeaking = true →
      MIN_SPEECH_DURATION_MS ≤ s.speechFrames * FRAME_DURATION_MS →
      SILENCE_DURATION_MS ≤ (frames.length + s.silenceFrames) * FRAME_DURATION_MS →
      frames ≠ [] →
      (run_detect s now frames).2.count VadResult.speechEnd = 1 := by
  induction frames with
  | nil => intro s _ _ _ _ hne; exact absurd rfl hne
  | cons f rest ih =>
      intro s hall hsp hspeech hlen _
      have hq : f.rmsSq ≤ ((SPEECH_THRESHOLD ^ 2 : ℕ) : ℚ) := hall f (by simp)
      by_cases hfull : SILENCE_DURATION_MS ≤ (s.silenceFrames + 1) * FRAME_DURATION_MS
      · have hnone := run_detect_low_no_end now rest
          { s with
              chunkCount := s.chunkCount + 1, silenceFrames := 0,
              speechFrames := 0, isSpeaking := false }
          (fun g hg => hall g (by simp [hg])) rfl
        simp [run_detect, detect_speech_low_speaking_full s now f hq hsp hfull,
          if_pos hspeech, List.count_cons, hnone]
      · have hrest : rest ≠ [] := by
          intro h
          rw [h] at hlen
          simp only [List.length_cons, List.length_nil, SILENCE_DURATION_MS,
            FRAME_DURATION_MS] at hlen hfull
          omega
        have hlen' : SILENCE_DURATION_MS ≤
            (rest.length + (s.silenceFrames + 1)) * FRAME_DURATION_MS := by
          simp only [List.length_cons] at hlen
          simp only [SILENCE_DURATION_MS, FRAME_DURATION_MS] at hlen ⊢
          omega
        have hrec := ih { s with
            chunkCount := s.chunkCount + 1,
            silenceFrames := s.silenceFrames + 1 }
          (fun g hg => hall g (by simp [hg])) hsp hspeech hlen' hrest
        simp [run_detect, detect_speech_low_speaking_short s now f hq hsp
          (not_le.mp hfull), List.count_cons, hrec]

/-- C6: while the VAD is speaking, every frame with RMS at or below the
speech threshold increments the silence counter (until the silence window
fills); when accumulated silence reaches the 1000 ms threshold, speaking
stops and the frame classifies as `speech_end` when accumulated speech
reached the 300 ms minimum (buffer kept), otherwise the buffer is cleared
and it classifies as `silence`; and over any long-enough run of silent
frames after sufficient speech, exactly one `speech_end` is produced. -/
theorem vad_silence_accumulation (s : Session) (now : ℤ) (f : Frame)
    (hq : f.rmsSq ≤ ((SPEECH_THRESHOLD ^ 2 : ℕ) : ℚ))
    (hsp : s.isSpeaking = true) :
    ((s.silenceFrames + 1) * FRAME_DURATION_MS < SILENCE_DURATION_MS →
       (detect_speech s now f).1.silenceFrames = s.silenceFrames + 1 ∧
       (detect_speech s now f).1.isSpeaking = true) ∧
    (SILENCE_DURATION_MS ≤ (s.silenceFrames + 1) * FRAME_DURATION_MS →
       (detect_speech s now f).1.isSpeaking = false ∧
       (MIN_SPEECH_DURATION_MS ≤ s.speechFrames * FRAME_DURATION_MS →
          (detect_speech s now f).2 = .speechEnd ∧
          (detect_speech s now f).1.bufferLen = s.bufferLen) ∧
       (s.speechFrames * FRAME_DURATION_MS < MIN_SPEECH_DURATION_MS →
          (detect_speech s now f).2 = .silence ∧
          (detect_speech s now f).1.bufferLen = 0)) ∧
    (∀ frames : List Frame,
       (∀ g ∈ frames, g.rmsSq ≤ ((SPEECH_THRESHOLD ^ 2 : ℕ) : ℚ)) →
       s.silenceFrames = 0 →
       MIN_SPEECH_DURATION_MS ≤ s.speechFrames * FRAME_DURATION_MS →
       SILENCE_DURATION_MS ≤ frames.length * FRAME_DURATION_MS →
       (run_detect s now frames).2.count VadResult.speechEnd = 1) := by
  refine ⟨?_, ?_, ?_⟩
  · intro h
    rw [detect_speech_low_speaking_short s now f hq hsp h]
    exact ⟨rfl, hsp⟩
  · intro h
    rw [detect_speech_low_speaking_full s now f hq hsp h]
    by_cases hm : MIN_SPEECH_DURATION_MS ≤ s.speechFrames * FRAME_DURATION_MS
    · rw [if_pos hm]
      exact ⟨rfl, fun _ => ⟨rfl, rfl⟩, fun hlt => absurd hm (not_le.mpr hlt)⟩
    · rw [if_neg hm]
      exact ⟨rfl, fun hge => absurd hge hm, fun _ => ⟨rfl, rfl⟩⟩
  · intro frames hall h0 hmin hlen
    refine run_detect_silent_once now frames s hall hsp hmin ?_ ?_
    · rw [h0]; simpa using hlen
    · intro h
      rw [h] at hlen
      simp [SILENCE_DURATION_MS, FRAME_DURATION_MS] at hlen

/-- Witness for `vad_silence_accumulation`: after 512 ms of speech, four
silent frames (1024 ms ≥ 1000 ms) produce exactly one `speech_end`. -/
theorem vad_silence_accumulation_witness :
    (run_detect sSpkEx 4 (List.replicate 4 ⟨2500, 8192⟩)).2.count
      VadResult.speechEnd = 1 :=
  (vad_silence_accumulation sSpkEx 4 ⟨2500, 8192⟩ (by decide) rfl).2.2
    (List.replicate 4 ⟨2500, 8192⟩) (by decide) rfl (by decide) (by decide)

/-- C2 (amended): in USER_SPEAKING, when the silence window fills on an
utterance whose speech duration is below the 300 ms minimum, the VAD yields
`silence` (not `speech_end`), the buffer is discarded, no event is emitted
and the session stays in USER_SPEAKING; the transition to LISTENING happens
only in the separate minimum-byte gate, where the VAD yields `speech_end`
and the short buffer is discarded. -/
theorem short_utterance_discard (s : Session) (now : ℤ) (f : Frame)
    (hst : s.state = .USER_SPEAKING)
    (hsp : s.isSpeaking = true)
    (hcool : ¬(0 < s.playbackEndedAt ∧
        (now - s.playbackEndedAt) * 1000 < ((PLAYBACK_COOLDOWN_MS : ℤ))))
    (hq : f.rmsSq ≤ ((SPEECH_THRESHOLD ^ 2 : ℕ) : ℚ))
    (hsil : SILENCE_DURATION_MS ≤ (s.silenceFrames + 1) * FRAME_DURATION_MS) :
    (s.speechFrames * FRAME_DURATION_MS < MIN_SPEECH_DURATION_MS →
       (detect_speech s now f).2 = .silence ∧
       (handle_audio_chunk s now f).1.state = .USER_SPEAKING ∧
       (handle_audio_chunk s now f).1.bufferLen = 0 ∧
       (handle_audio_chunk s now f).2 = []) ∧
    (MIN_SPEECH_DURATION_MS ≤ s.speechFrames * FRAME_DURATION_MS →
     s.bufferLen < MIN_AUDIO_BYTES →
       (detect_speech s now f).2 = .speechEnd ∧
       (handle_audio_chunk s now f).1.state = .LISTENING ∧
       (handle_audio_chunk s now f).1.bufferLen = 0 ∧
       (handle_audio_chunk s now f).2 = [.vad false]) := by
  constructor
  · intro hshort
    have hd := detect_speech_low_speaking_full s now f hq hsp hsil
    rw [if_neg (not_le.mpr hshort)] at hd
    refine ⟨by rw [hd], ?_⟩
    simp only [handle_audio_chunk, hst, hd]
    simp [hcool, hst]
  · intro hlong hbuf
    have hd := detect_speech_low_speaking_full s now f hq hsp hsil
    rw [if_pos hlong] at hd
    refine ⟨by rw [hd], ?_⟩
    simp only [handle_audio_chunk, hst, hd]
    simp [hcool, hst, set_state, hbuf]

/-- Witness for `short_utterance_discard`: a one-frame utterance followed by
a window-filling silent frame leaves the session in USER_SPEAKING. -/
theorem short_utterance_discard_witness :
    (handle_audio_chunk sShortEx 4 ⟨2500, 8192⟩).1.state = .USER_SPEAKING :=
  ((short_utterance_discard sShortEx 4 ⟨2500, 8192⟩ rfl rfl (by decide) (by decide)
      (by decide)).1 (by decide)).2.1

/-- Counterexample to C2 as stated: after the too-short utterance of
`c2trace` the buffer is discarded and the speaking flag is down, but the
session remains in USER_SPEAKING — it does not transition to LISTENING. -/
theorem short_utterance_stays_user_speaking :
    (runTrace (initSession 0) c2trace).1.state = .USER_SPEAKING ∧
    (runTrace (initSession 0) c2trace).1.state ≠ .LISTENING ∧
    (runTrace (initSession 0) c2trace).1.bufferLen = 0 ∧
    (runTrace (initSession 0) c2trace).1.isSpeaking = false := by
  decide

/-- C1 (amended): `playback_done` is handled unconditionally and forces
LISTENING from every state; the genuinely out-of-table inbound events
(`user_interrupt`, `config`, `pong`, and audio during PROCESSING) are
no-ops. -/
theorem playback_done_forces_listening (s : Session) (now : ℤ) :
    (dispatch s now .playbackDone).1.state = .LISTENING ∧
    dispatch s now .userInterrupt = (s, []) ∧
    dispatch s now .configMsg = (s, []) ∧
    dispatch s now .pong = (s, []) ∧
    (∀ f, s.state = .PROCESSING → handle_audio_chunk s now f = (s, [])) := by
  refine ⟨rfl, rfl, rfl, rfl, ?_⟩
  intro f hst
  simp [handle_audio_chunk, hst]

/-- Witness for `playback_done_forces_listening` at a session in
PROCESSING. -/
theorem playback_done_forces_listening_witness :
    handle_audio_chunk { sSpkEx with state := .PROCESSING } 5 ⟨62500, 8192⟩ =
      ({ sSpkEx with state := .PROCESSING }, []) :=
  (playback_done_forces_listening { sSpkEx with state := .PROCESSING } 5).2.2.2.2
    ⟨62500, 8192⟩ rfl

/-- Counterexample to C1 as stated: a `playback_done` received in
USER_SPEAKING or PROCESSING — both (state, event) pairs outside the §4.1
table — is not a no-op: it moves the session to LISTENING. -/
theorem playback_done_not_noop :
    sUserEx.state = .USER_SPEAKING ∧
    (step sUserEx 5 (.msg .playbackDone)).1.state = .LISTENING ∧
    sProcEx.state = .PROCESSING ∧
    (step sProcEx 5 (.msg .playbackDone)).1.state = .LISTENING := by
  decide

/-- C4 (amended): during AI_SPEAKING/GREETING, a frame at or below the
barge-in threshold resets the counter, an over-threshold frame increments
it without any other effect while the count stays under 3, and barge-in
fires exactly when the incremented counter reaches 3 — on firing the
in-flight task is cancelled and dropped, `interrupt` and `vad true` are
emitted, the buffer is re-seeded with the triggering frame, speaking is set,
and the state becomes USER_SPEAKING.  Because the counter is preserved
across state transitions other than `playback_done` and firing, the three
counted frames need not be consecutive frames of one AI episode. -/
theorem barge_in_counter_semantics (s : Session) (now : ℤ) (f : Frame)
    (hst : s.state = .AI_SPEAKING ∨ s.state = .GREETING) :
    (f.rmsSq ≤ ((BARGE_IN_THRESHOLD ^ 2 : ℕ) : ℚ) →
       handle_audio_chunk s now f =
         ({ s with chunkCount := s.chunkCount + 1, bargeInFrames := 0 }, [])) ∧
    (((BARGE_IN_THRESHOLD ^ 2 : ℕ) : ℚ) < f.rmsSq →
     s.bargeInFrames + 1 < MIN_BARGE_IN_FRAMES →
       handle_audio_chunk s now f =
         ({ s with
             chunkCount := s.chunkCount + 1,
             bargeInFrames := s.bargeInFrames + 1 }, [])) ∧
    (((BARGE_IN_THRESHOLD ^ 2 : ℕ) : ℚ) < f.rmsSq →
     MIN_BARGE_IN_FRAMES ≤ s.bargeInFrames + 1 →
       (handle_audio_chunk s now f).1.state = .USER_SPEAKING ∧
       (handle_audio_chunk s now f).1.isSpeaking = true ∧
       (handle_audio_chunk s now f).1.bufferLen = f.len ∧
       (handle_audio_chunk s now f).1.speechFrames = 1 ∧
       (handle_audio_chunk s now f).1.silenceFrames = 0 ∧
       (handle_audio_chunk s now f).1.bargeInFrames = 0 ∧
       (handle_audio_chunk s now f).2 =
         [.interrupt, .status "listening", .vad true] ∧
       (∀ t, s.task = some t → t.done = false →
          (handle_audio_chunk s now f).1.task = none)) := by
  refine ⟨?_, ?_, ?_⟩
  · intro hq
    simp only [handle_audio_chunk, if_pos hst, not_lt.mpr hq, if_false]
  · intro hq hcnt
    simp only [handle_audio_chunk, if_pos hst, if_pos hq, not_le.mpr hcnt, if_false]
  · intro hq hcnt
    refine ⟨?_, ?_, ?_, ?_, ?_, ?_, ?_, ?_⟩ <;>
      simp only [handle_audio_chunk, if_pos hst, if_pos hq, if_pos hcnt,
        barge_in_fire, interrupt_ai, set_state]
    · rfl
    · intro t ht hd
      simp [ht, hd]

/-- Witness for `barge_in_counter_semantics`: one over-threshold frame on
top of a counter of 2 fires barge-in and disposes of the running task. -/
theorem barge_in_counter_semantics_witness :
    (handle_audio_chunk sAiEx 142 ⟨360000, 8192⟩).1.state = .USER_SPEAKING ∧
    (handle_audio_chunk sAiEx 142 ⟨360000, 8192⟩).1.task = none :=
  ⟨((barge_in_counter_semantics sAiEx 142 ⟨360000, 8192⟩ (Or.inl rfl)).2.2
      (by decide) (by decide)).1,
   ((barge_in_counter_semantics sAiEx 142 ⟨360000, 8192⟩ (Or.inl rfl)).2.2
      (by decide) (by decide)).2.2.2.2.2.2.2 ⟨.turnAudioSent "హలో" "సరే", false, false⟩
     rfl rfl⟩

/-- Counterexample to C4 as stated: after `c4prefixTrace` the session is in
AI_SPEAKING and has processed no over-threshold frame since entering it
(the stale counter of 2 was accumulated in GREETING, 130 s and a dozen
frames earlier), yet one single over-threshold frame — fewer than 3
consecutive ones — triggers cancellation and the transition to
USER_SPEAKING. -/
theorem barge_in_fires_after_single_frame :
    (runTrace (initSession 0) c4prefixTrace).1.state = .AI_SPEAKING ∧
    (runTrace (initSession 0) c4prefixTrace).1.bargeInFrames = 2 ∧
    (step (runTrace (initSession 0) c4prefixTrace).1 142
        (.msg (.audioChunk ⟨360000, 8192⟩))).1.state = .USER_SPEAKING ∧
    Event.interrupt ∈
      (step (runTrace (initSession 0) c4prefixTrace).1 142
        (.msg (.audioChunk ⟨360000, 8192⟩))).2 := by
  decide

/-- C5: however the per-turn pipeline task is cancelled and at whatever
stage, the conversation history is untouched by the cancellation (turn
pairs are only ever appended whole, by an uncancelled task), and the
session ends in USER_SPEAKING when the cancellation came from barge-in and
in LISTENING otherwise (teardown delivery of the cancellation runs the
task's handler, which resets to LISTENING). -/
theorem cancellation_state_and_history (s : Session) (now : ℤ) (f : Frame)
    (t : TaskState) (htask : s.task = some t) (hrun : t.done = false)
    (hnc : t.cancelled = false) (hturn : t.phase.isTurn = true) :
    ((s.state = .AI_SPEAKING ∨ s.state = .GREETING) →
     ((BARGE_IN_THRESHOLD ^ 2 : ℕ) : ℚ) < f.rmsSq →
     MIN_BARGE_IN_FRAMES ≤ s.bargeInFrames + 1 →
       (handle_audio_chunk s now f).1.state = .USER_SPEAKING ∧
       (handle_audio_chunk s now f).1.history = s.history) ∧
    ((step s now .cancelDeliver).1.state = .LISTENING ∧
     (step s now .cancelDeliver).1.history = s.history) := by
  constructor
  · intro hst hq hcnt
    simp only [handle_audio_chunk, if_pos hst, if_pos hq, if_pos hcnt,
      barge_in_fire, set_state, interrupt_ai, htask, hrun]
    simp [run_cancel_handler, hturn, set_state]
  · simp only [step, htask, hrun, hnc]
    simp [run_cancel_handler, hturn, set_state]

/-- Witness for `cancellation_state_and_history` at the AI_SPEAKING session
`sAiEx` and a barge-in-firing frame. -/
theorem cancellation_state_and_history_witness :
    (handle_audio_chunk sAiEx 142 ⟨360000, 8192⟩).1.history = sAiEx.history ∧
    (step sAiEx 142 Act.cancelDeliver).1.state = .LISTENING :=
  ⟨((cancellation_state_and_history sAiEx 142 ⟨360000, 8192⟩
        ⟨.turnAudioSent "హలో" "సరే", false, false⟩ rfl rfl rfl rfl).1
      (Or.inl rfl) (by decide) (by decide)).2,
   (cancellation_state_and_history sAiEx 142 ⟨360000, 8192⟩
        ⟨.turnAudioSent "హలో" "సరే", false, false⟩ rfl rfl rfl rfl).2.1⟩

/-- C3 (amended): the handler can start a second pipeline task while an
earlier one is still running — at `speech_end` with a large-enough buffer
it overwrites the task handle without cancelling or awaiting the previous
task, which survives unobserved (orphaned, and recorded there exactly as it
was, in particular uncancelled); only the barge-in path (`_interrupt_ai`)
observes cancellation of the previous task before new speech starts. -/
theorem pipeline_overlap_semantics (s : Session) (now : ℤ) (f : Frame)
    (t : TaskState) (htask : s.task = some t) (hrun : t.done = false)
    (hst : s.state = .USER_SPEAKING)
    (hcool : ¬(0 < s.playbackEndedAt ∧
        (now - s.playbackEndedAt) * 1000 < ((PLAYBACK_COOLDOWN_MS : ℤ))))
    (hsp : s.isSpeaking = true)
    (hq : f.rmsSq ≤ ((SPEECH_THRESHOLD ^ 2 : ℕ) : ℚ))
    (hsil : SILENCE_DURATION_MS ≤ (s.silenceFrames + 1) * FRAME_DURATION_MS)
    (hlong : MIN_SPEECH_DURATION_MS ≤ s.speechFrames * FRAME_DURATION_MS)
    (hbuf : MIN_AUDIO_BYTES ≤ s.bufferLen) :
    (handle_audio_chunk s now f).1.state = .PROCESSING ∧
    (handle_audio_chunk s now f).1.task = some ⟨.turnStart, false, false⟩ ∧
    (handle_audio_chunk s now f).1.orphaned = s.orphaned ++ [t] ∧
    (interrupt_ai s now).1.task = none := by
  have hd := detect_speech_low_speaking_full s now f hq hsp hsil
  rw [if_pos hlong] at hd
  simp only [handle_audio_chunk, hst, hd]
  simp [hcool, set_state, spawn_turn_task, not_lt.mpr hbuf, htask, hrun,
    interrupt_ai]

/-- Witness for `pipeline_overlap_semantics` at a USER_SPEAKING session
whose previous (greeting) task is still running. -/
theorem pipeline_overlap_semantics_witness :
    (handle_audio_chunk
        { sSpkEx with silenceFrames := 3, task := some ⟨.greetBusiness, false, false⟩ }
        4 ⟨2500, 8192⟩).1.orphaned = [⟨.greetBusiness, false, false⟩] :=
  (pipeline_overlap_semantics
      { sSpkEx with silenceFrames := 3, task := some ⟨.greetBusiness, false, false⟩ }
      4 ⟨2500, 8192⟩
      ⟨.greetBusiness, false, false⟩ rfl rfl rfl (by decide) rfl (by decide)
      (by decide) (by decide) (by decide)).2.2.1

/-- Counterexample to C3 as stated: after `c3trace` a fresh turn task has
been started while the first turn's task — still suspended at its
transcription await, never cancelled, its cancellation never observed — is
alive in `orphaned`. -/
theorem second_turn_task_while_first_alive :
    (runTrace (initSession 0) c3trace).1.state = .PROCESSING ∧
    (runTrace (initSession 0) c3trace).1.task = some ⟨.turnStart, false, false⟩ ∧
    (runTrace (initSession 0) c3trace).1.orphaned =
      [⟨.turnStt, false, false⟩] := by
  decide

/-- C7: per turn the synthesis call is made at most twice; when the first
call yields nothing truthy it is retried exactly once, and when the retry
also fails the turn emits no `audio` event, ends in LISTENING, sends a
`status listening` update, and the assistant transcript emitted before the
synthesis stage stands in the event sequence. -/
theorem tts_retry_and_failure (h0 : List Turn) (env : PipelineEnv) :
    (process_utterance h0 env).ttsCalls ≤ 2 ∧
    (∀ txt, env.sttResult = some txt → isBlank txt = false →
       (truthyBytes env.tts1 = true → (process_utterance h0 env).ttsCalls = 1) ∧
       (truthyBytes env.tts1 = false →
          (process_utterance h0 env).ttsCalls = 2 ∧
          (truthyBytes env.tts2 = false →
             Event.audio ∉ (process_utterance h0 env).events ∧
             (process_utterance h0 env).finalState = .LISTENING ∧
             Event.status "listening" ∈ (process_utterance h0 env).events ∧
             Event.transcript .assistant (String.join (stream_llm env.llm).1) ∈
               (process_utterance h0 env).events))) := by
  constructor
  · match henv : env.sttResult with
    | none => simp [process_utterance, henv]
    | some txt =>
        by_cases hb : isBlank txt = true
        · simp [process_utterance, henv, hb]
        · by_cases h1 : truthyBytes env.tts1 = true <;>
            simp [process_utterance, henv, hb, h1]
  · intro txt htxt hblank
    refine ⟨?_, ?_⟩
    · intro h1
      simp [process_utterance, htxt, hblank, h1]
    · intro h1
      constructor
      · simp [process_utterance, htxt, hblank, h1]
      · intro h2
        refine ⟨?_, ?_, ?_, ?_⟩ <;>
          simp [process_utterance, htxt, hblank, h1, h2]

/-- Witness for `tts_retry_and_failure`: with both synthesis calls failing,
the turn makes exactly two synthesis calls, emits no audio, ends in
LISTENING, and keeps its assistant transcript. -/
theorem tts_retry_and_failure_witness :
    (process_utterance [] envTtsFail).ttsCalls = 2 ∧
    Event.audio ∉ (process_utterance [] envTtsFail).events ∧
    (process_utterance [] envTtsFail).finalState = .LISTENING :=
  ⟨(((tts_retry_and_failure [] envTtsFail).2 "హలో" rfl (by decide)).2 rfl).1,
   ((((tts_retry_and_failure [] envTtsFail).2 "హలో" rfl (by decide)).2 rfl).2
      rfl).1,
   ((((tts_retry_and_failure [] envTtsFail).2 "హలో" rfl (by decide)).2 rfl).2
      rfl).2.1⟩

/-- C9: a client-side (400) failure of the streaming generation call makes
exactly one non-streaming fallback call (no other outcome makes any); when
the fallback also fails, the fixed apology phrase is the yielded text; and
whatever the generation outcome, a turn that passed transcription still
emits its assistant transcript, invokes synthesis, and runs to its final
`perf` event — the generation stage never aborts the turn. -/
theorem llm_fallback_and_continuation (h0 : List Turn) (env : PipelineEnv) :
    (∀ fb, (stream_llm (.clientError fb)).2 = 1) ∧
    (∀ o, (∀ fb, o ≠ LlmStreamOutcome.clientError fb) → (stream_llm o).2 = 0) ∧
    (stream_llm (.clientError none)).1 = [APOLOGY_PHRASE] ∧
    (∀ txt, env.sttResult = some txt → isBlank txt = false →
       (env.llm = .clientError none →
          Event.transcript .assistant (String.join [APOLOGY_PHRASE]) ∈
            (process_utterance h0 env).events) ∧
       1 ≤ (process_utterance h0 env).ttsCalls ∧
       Event.transcript .assistant (String.join (stream_llm env.llm).1) ∈
         (process_utterance h0 env).events ∧
       Event.perf ∈ (process_utterance h0 env).events) := by
  refine ⟨?_, ?_, rfl, ?_⟩
  · intro fb
    cases fb <;> rfl
  · intro o ho
    cases o with
    | clientError fb => exact absurd rfl (ho fb)
    | _ => rfl
  · intro txt htxt hblank
    refine ⟨?_, ?_, ?_, ?_⟩
    · intro hllm
      simp [process_utterance, htxt, hblank, hllm, stream_llm]
    · by_cases h1 : truthyBytes env.tts1 = true <;>
        simp [process_utterance, htxt, hblank, h1]
    · simp [process_utterance, htxt, hblank]
    · simp [process_utterance, htxt, hblank]

/-- Witness for `llm_fallback_and_continuation`: under a double generation
failure the fallback is called exactly once, the apology phrase is the
assistant transcript, and the turn still reaches synthesis and `perf`. -/
theorem llm_fallback_and_continuation_witness :
    (stream_llm (.clientError none)).2 = 1 ∧
    Event.transcript .assistant (String.join [APOLOGY_PHRASE]) ∈
      (process_utterance [] envLlm400).events ∧
    1 ≤ (process_utterance [] envLlm400).ttsCalls ∧
    Event.perf ∈ (process_utterance [] envLlm400).events :=
  ⟨(llm_fallback_and_continuation [] envLlm400).1 none,
   ((llm_fallback_and_continuation [] envLlm400).2.2.2 "హలో" rfl (by decide)).1
     rfl,
   ((llm_fallback_and_continuation [] envLlm400).2.2.2 "హలో" rfl
       (by decide)).2.1,
   ((llm_fallback_and_continuation [] envLlm400).2.2.2 "హలో" rfl
       (by decide)).2.2.2⟩

/-! ### Lemmas about `lastIndexWhere` (Python `rfind`) -/

/-- `lastIndexWhere` never returns anything below `-1`. -/
theorem lastIndexWhere_ge (p : Char → Bool) (l : List Char) :
    -1 ≤ lastIndexWhere p l := by
  induction l with
  | nil => simp [lastIndexWhere]
  | cons c rest ih =>
      simp only [lastIndexWhere]
      split_ifs <;> omega

/-- The last index satisfying a disjunction of predicates is the maximum of
the two last indices — the bridge between the four separate `rfind` calls
the source maximises and a single sentence-boundary search. -/
theorem lastIndexWhere_or (p q : Char → Bool) (l : List Char) :
    lastIndexWhere (fun c => p c || q c) l =
      max (lastIndexWhere p l) (lastIndexWhere q l) := by
  induction l with
  | nil => simp [lastIndexWhere]
  | cons c rest ih =>
      have hp := lastIndexWhere_ge p rest
      have hq := lastIndexWhere_ge q rest
      simp only [lastIndexWhere, ih]
      by_cases hpc : p c <;> by_cases hqc : q c <;>
        simp only [hpc, hqc, Bool.true_or, Bool.or_true, Bool.false_or,
          Bool.or_false] <;>
        split_ifs <;> omega

/-- `lastIndexWhere` only looks at the predicate pointwise. -/
theorem lastIndexWhere_congr (p q : Char → Bool) (h : ∀ c, p c = q c)
    (l : List Char) : lastIndexWhere p l = lastIndexWhere q l := by
  induction l with
  | nil => rfl
  | cons c rest ih => simp only [lastIndexWhere, ih, h c]

/-- A block of characters not satisfying `p` contributes no index. -/
theorem lastIndexWhere_replicate_neg (p : Char → Bool) (c : Char)
    (hp : p c = false) (n : ℕ) :
    lastIndexWhere p (List.replicate n c) = -1 := by
  induction n with
  | zero => simp [lastIndexWhere]
  | succ n ih => simp [List.replicate_succ, lastIndexWhere, ih, hp]

/-- One-step unfolding of `lastIndexWhere` on a cons cell. -/
theorem lastIndexWhere_cons (p : Char → Bool) (c : Char) (l : List Char) :
    lastIndexWhere p (c :: l) =
      if 0 ≤ lastIndexWhere p l then lastIndexWhere p l + 1
      else if p c then 0 else -1 := rfl

/-- Splitting `lastIndexWhere` at an append: a hit in the right part wins
(shifted by the left length), otherwise the left part decides. -/
theorem lastIndexWhere_append (p : Char → Bool) (l1 l2 : List Char) :
    lastIndexWhere p (l1 ++ l2) =
      if 0 ≤ lastIndexWhere p l2 then (l1.length : ℤ) + lastIndexWhere p l2
      else lastIndexWhere p l1 := by
  induction l1 with
  | nil =>
      have h2 := lastIndexWhere_ge p l2
      simp only [List.nil_append, List.length_nil]
      split_ifs with h
      · omega
      · have : lastIndexWhere p l2 = -1 := by omega
        simp [lastIndexWhere, this]
  | cons c rest ih =>
      have h2 := lastIndexWhere_ge p l2
      have hr := lastIndexWhere_ge p rest
      rw [List.cons_append, lastIndexWhere_cons, ih, lastIndexWhere_cons,
        List.length_cons]
      split_ifs <;> omega

/-- The maximum of the four `rfind` results of `_smart_truncate` is the last
sentence-ender index. -/
theorem enders_max (l : List Char) :
    max (rfind l '.') (max (rfind l '!') (max (rfind l '?') (rfind l '।'))) =
      lastIndexWhere isSentenceEnder l := by
  rw [rfind, rfind, rfind, rfind, ← lastIndexWhere_or, ← lastIndexWhere_or,
    ← lastIndexWhere_or]
  exact lastIndexWhere_congr _ _
    (fun c => by simp [isSentenceEnder, Bool.or_assoc]) l

/-- C8 (amended): text within the limit is returned unchanged; longer text
is cut at the last sentence-ender of `text[:limit]` when its index exceeds
`limit / 2` (keeping the punctuation, no ellipsis); otherwise at the last
space of `text[:limit]` when its index exceeds `limit / 2`, with the
three-dot ellipsis appended; otherwise hard-cut at `limit`, also with the
ellipsis appended — the ellipsis marks word-boundary cuts as well as hard
cuts. -/
theorem smart_truncate_characterization (text : List Char) (limit : ℕ) :
    (text.length ≤ limit → smart_truncate text limit = text) ∧
    (limit < text.length →
      ((((limit / 2 : ℕ)) : ℤ) < lastIndexWhere isSentenceEnder (text.take limit) →
         smart_truncate text limit =
           (text.take limit).take
             (lastIndexWhere isSentenceEnder (text.take limit) + 1).toNat) ∧
      (lastIndexWhere isSentenceEnder (text.take limit) ≤ (((limit / 2 : ℕ)) : ℤ) →
        ((((limit / 2 : ℕ)) : ℤ) < rfind (text.take limit) ' ' →
           smart_truncate text limit =
             (text.take limit).take (rfind (text.take limit) ' ').toNat ++
               ellipsisChars) ∧
        (rfind (text.take limit) ' ' ≤ (((limit / 2 : ℕ)) : ℤ) →
           smart_truncate text limit = text.take limit ++ ellipsisChars))) := by
  have hmax := enders_max (text.take limit)
  constructor
  · intro h
    simp [smart_truncate, h]
  · intro h
    constructor
    · intro hs
      simp only [smart_truncate, if_neg (not_le.mpr h), hmax, if_pos hs]
    · intro hs
      constructor
      · intro hsp
        simp only [smart_truncate, if_neg (not_le.mpr h), hmax,
          if_neg (not_lt.mpr hs), if_pos hsp]
      · intro hsp
        simp only [smart_truncate, if_neg (not_le.mpr h), hmax,
          if_neg (not_lt.mpr hs), if_neg (not_lt.mpr hsp)]

/-- Witness for `smart_truncate_characterization`: a sentence boundary past
`limit / 2` is preferred and keeps its punctuation without ellipsis. -/
theorem smart_truncate_characterization_witness :
    smart_truncate "ab cd. efghij".toList 8 = "ab cd.".toList :=
  ((smart_truncate_characterization "ab cd. efghij".toList 8).2 (by decide)).1
    (by decide)

/-- Counterexample to C8 as stated: on `c8ex` with the source's limit 490
the cut happens at the last space (index 300 > 245), yet the result carries
the trailing ellipsis — it is not the bare prefix the claim predicts for a
word-boundary cut. -/
theorem smart_truncate_space_cut_has_ellipsis :
    490 < c8ex.length ∧
    smart_truncate c8ex 490 = List.replicate 300 'a' ++ ellipsisChars ∧
    smart_truncate c8ex 490 ≠ List.replicate 300 'a' := by
  have htake : c8ex.take 490 =
      List.replicate 300 'a' ++ ' ' :: List.replicate 189 'b' := by
    rw [show c8ex = List.replicate 300 'a' ++ ' ' :: List.replicate 200 'b'
        from rfl,
      List.take_append_eq_append_take, List.length_replicate,
      List.take_replicate 'a' 490 300,
      show (490 : ℕ) - 300 = 189 + 1 from rfl, List.take_succ_cons,
      List.take_replicate 'b' 189 200]
    norm_num
  have hcons : ∀ p : Char → Bool, p ' ' = false → p 'b' = false →
      lastIndexWhere p (' ' :: List.replicate 189 'b') = -1 := by
    intro p hsp hb
    rw [lastIndexWhere_cons, lastIndexWhere_replicate_neg p 'b' hb 189, hsp]
    norm_num
  have hend : ∀ p : Char → Bool, p 'a' = false → p ' ' = false → p 'b' = false →
      lastIndexWhere p (c8ex.take 490) = -1 := by
    intro p ha hsp hb
    rw [htake, lastIndexWhere_append, hcons p hsp hb,
      lastIndexWhere_replicate_neg p 'a' ha 300]
    norm_num
  have hspace : rfind (c8ex.take 490) ' ' = 300 := by
    have h0 : lastIndexWhere (fun x => x = ' ')
        (' ' :: List.replicate 189 'b') = 0 := by
      rw [lastIndexWhere_cons,
        lastIndexWhere_replicate_neg (fun x => x = ' ') 'b' (by decide) 189]
      norm_num
    rw [rfind, htake, lastIndexWhere_append, h0, List.length_replicate]
    norm_num
  have e1 : rfind (c8ex.take 490) '.' = -1 := by
    rw [rfind]; exact hend _ (by decide) (by decide) (by decide)
  have e2 : rfind (c8ex.take 490) '!' = -1 := by
    rw [rfind]; exact hend _ (by decide) (by decide) (by decide)
  have e3 : rfind (c8ex.take 490) '?' = -1 := by
    rw [rfind]; exact hend _ (by decide) (by decide) (by decide)
  have e4 : rfind (c8ex.take 490) '।' = -1 := by
    rw [rfind]; exact hend _ (by decide) (by decide) (by decide)
  have hlen : 490 < c8ex.length := by
    rw [show c8ex = List.replicate 300 'a' ++ ' ' :: List.replicate 200 'b'
        from rfl,
      List.length_append, List.length_replicate, List.length_cons,
      List.length_replicate]
    norm_num
  have htake300 : (c8ex.take 490).take 300 = List.replicate 300 'a' := by
    rw [htake, List.take_append_eq_append_take, List.length_replicate,
      List.take_replicate 'a' 300 300]
    norm_num
  have hmain : smart_truncate c8ex 490 =
      List.replicate 300 'a' ++ ellipsisChars := by
    rw [smart_truncate, if_neg (not_le.mpr hlen), e1, e2, e3, e4]
    rw [if_neg (by norm_num), if_pos (by rw [hspace]; norm_num), hspace]
    rw [show ((300 : ℤ)).toNat = 300 from rfl, htake300]
  refine ⟨hlen, hmain, ?_⟩
  intro hcontra
  rw [hmain] at hcontra
  have hl := congrArg List.length hcontra
  rw [List.length_append, List.length_replicate] at hl
  simp [ellipsisChars] at hl

/-- C10 (amended): `_calculate_rms` returns 0.0 for inputs shorter than two
bytes and raises (the fixed-size unpack fails) for every odd byte length of
at least 3; `handle_audio_chunk` therefore raises on such a chunk whenever
it computes RMS — in AI_SPEAKING/GREETING, and in LISTENING/USER_SPEAKING
outside the playback cooldown — but not in PROCESSING or during the
cooldown, where the chunk is dropped before any RMS computation. -/
theorem rms_partiality_semantics (s : Session) (now : ℤ) (b : List ℕ)
    (hodd : b.length % 2 = 1) (h3 : 3 ≤ b.length) :
    calculate_rms_sq b = none ∧
    ((s.state = .AI_SPEAKING ∨ s.state = .GREETING) →
       handle_audio_chunk_bytes s now b = none) ∧
    (s.state = .PROCESSING → handle_audio_chunk_bytes s now b = some (s, [])) ∧
    ((s.state = .LISTENING ∨ s.state = .USER_SPEAKING) →
       ((0 < s.playbackEndedAt ∧
           (now - s.playbackEndedAt) * 1000 < ((PLAYBACK_COOLDOWN_MS : ℤ))) →
          handle_audio_chunk_bytes s now b = some (s, [])) ∧
       (¬(0 < s.playbackEndedAt ∧
           (now - s.playbackEndedAt) * 1000 < ((PLAYBACK_COOLDOWN_MS : ℤ))) →
          handle_audio_chunk_bytes s now b = none)) ∧
    (∀ b2 : List ℕ, b2.length < 2 → calculate_rms_sq b2 = some 0) := by
  have hnone : calculate_rms_sq b = none := by
    rw [calculate_rms_sq, if_neg (by omega), if_pos hodd]
  refine ⟨hnone, ?_, ?_, ?_, ?_⟩
  · intro hst
    simp only [handle_audio_chunk_bytes, if_pos hst, hnone, Option.map_none']
  · intro hst
    simp [handle_audio_chunk_bytes, hst]
  · intro hst
    constructor
    · intro hcool
      rcases hst with h | h <;> simp [handle_audio_chunk_bytes, h, hcool]
    · intro hcool
      rcases hst with h | h <;> simp [handle_audio_chunk_bytes, h, hcool, hnone]
  · intro b2 h2
    rw [calculate_rms_sq, if_pos h2]

/-- Witness for `rms_partiality_semantics`: a 3-byte chunk during
AI_SPEAKING propagates the unpack failure out of the handler. -/
theorem rms_partiality_semantics_witness :
    handle_audio_chunk_bytes sAiEx 142 [1, 2, 3] = none :=
  (rms_partiality_semantics sAiEx 142 [1, 2, 3] (by decide) (by decide)).2.1
    (Or.inl rfl)

/-- Counterexample to C10 as stated: a 3-byte (odd-length) chunk handed to
the audio entry point while the session is in PROCESSING does not raise —
the chunk is dropped before `_calculate_rms` runs. -/
theorem odd_chunk_no_raise_in_processing :
    ([1, 2, 3] : List ℕ).length % 2 = 1 ∧ 3 ≤ ([1, 2, 3] : List ℕ).length ∧
    sProcEx.state = .PROCESSING ∧
    handle_audio_chunk_bytes sProcEx 5 [1, 2, 3] = some (sProcEx, []) := by
  decide

end VoiceAgent
